import Mathlib

/-!
Verification of `UserBehaviorTiny` (src/app.py): a Flask + SQLite
event-logging service.  The embedding below models the SQLite store as an
in-memory structure and the two request handlers (`GET /elements`,
`POST /events`) plus `init_db` as pure functions over it, threading the
server clock (`int(time.time())`) as an explicit `now` argument.

Modelling notes, faithful to the source and to SQLite/Python semantics:
* `sqlite3.connect` never executes `PRAGMA foreign_keys=ON`, so the
  `FOREIGN KEY (ui_element_id) REFERENCES ui_elements(id)` clause declared
  in `init_db` is NOT enforced at insert time.
* The `payload` column has TEXT affinity: numeric values bound as INSERT
  parameters are converted to their decimal text rendering before storage;
  Python `bool` is adapted to an integer first.  Binding a `list` or `dict`
  parameter raises (`InterfaceError`/`ProgrammingError`), an unhandled
  exception, which Flask surfaces as a 5xx response.
* `request.get_json(silent=True)` yields any JSON value or `None`;
  `data = ... or {}` replaces falsy results by `{}`; `data.get(...)` on a
  non-dict raises `AttributeError` (5xx).
* JSON numbers are modelled as integers (the requests in scope use none
  other); Python `str.strip()` is modelled by `pyStrip` (dropping
  `Char.isWhitespace` characters at both ends), which agrees with it on the
  ASCII whitespace appearing here; Python `repr` of strings
  is modelled without escape sequences (no payload in scope contains a
  quote or backslash).
-/

/-- JSON values as parsed by `request.get_json` (numbers restricted to
integers, see the modelling notes). -/
inductive Json where
  | jnull : Json
  | jbool : Bool → Json
  | jnum : Int → Json
  | jstr : String → Json
  | jarr : List Json → Json
  | jobj : List (String × Json) → Json

/-- Python truthiness of a parsed JSON value: `None`, `False`, `0`, `""`,
`[]` and `\x7b\x7d` are falsy, everything else truthy. -/
def truthy : Json → Bool
  | .jnull => false
  | .jbool b => b
  | .jnum n => n != 0
  | .jstr s => s != ""
  | .jarr xs => !xs.isEmpty
  | .jobj fs => !fs.isEmpty

/-- Truthiness of `data.get(k)`: `None` (absent key) is falsy. -/
def truthyOpt : Option Json → Bool
  | none => false
  | some j => truthy j

/-- Single-quote character, used by Python `repr` of strings. -/
def pyQuote : String := (Char.ofNat 39).toString

mutual

/-- Python `repr` of a parsed JSON value (strings without escape
sequences, see the modelling notes). -/
def pyRepr : Json → String
  | .jnull => "None"
  | .jbool true => "True"
  | .jbool false => "False"
  | .jnum n => toString n
  | .jstr s => pyQuote ++ s ++ pyQuote
  | .jarr xs => "[" ++ pyReprList xs ++ "]"
  | .jobj fs => "\x7b" ++ pyReprFields fs ++ "\x7d"

/-- Comma-separated `repr` of list items. -/
def pyReprList : List Json → String
  | [] => ""
  | [x] => pyRepr x
  | x :: xs => pyRepr x ++ ", " ++ pyReprList xs

/-- Comma-separated `repr` of dict entries. -/
def pyReprFields : List (String × Json) → String
  | [] => ""
  | [(k, v)] => pyQuote ++ k ++ pyQuote ++ ": " ++ pyRepr v
  | (k, v) :: fs => pyQuote ++ k ++ pyQuote ++ ": " ++ pyRepr v ++ ", " ++ pyReprFields fs

end

/-- Python `str()` of a parsed JSON value: identity on strings, `repr`
otherwise. -/
def pyStr : Json → String
  | .jstr s => s
  | j => pyRepr j

/-- Python `str.strip()`: remove leading and trailing whitespace (modelled
over the character list; agrees with Python on the ASCII whitespace in
scope). -/
def pyStrip (s : String) : String :=
  ⟨((s.data.dropWhile Char.isWhitespace).reverse.dropWhile Char.isWhitespace).reverse⟩

/-- Lookup of a key in a parsed JSON object, as `dict.get(k)` (dict keys
are unique, so first match suffices). -/
def jsonLookup (fs : List (String × Json)) (k : String) : Option Json :=
  match fs with
  | [] => none
  | (k2, v) :: rest => if k2 == k then some v else jsonLookup rest k

/-- Python comparison of `data.get(k)` with a string literal, as in
`event_type in ("click", "text_submit")`: only an actual string compares
equal. -/
def isStr (j : Option Json) (t : String) : Bool :=
  match j with
  | some (.jstr s) => s == t
  | _ => false

/-- Condition line 72 of app.py: `event_type in ("click", "text_submit")`. -/
def etValid (j : Option Json) : Bool :=
  isStr j "click" || isStr j "text_submit"

/-- Condition line 76 of app.py: `payload and str(payload).strip()` for the
value of `data.get("payload")`. -/
def payloadTruthyNonBlank : Option Json → Bool
  | none => false
  | some j => truthy j && pyStrip (pyStr j) != ""

/-- SQLite storage value used for bound parameters and stored cells. -/
inductive SqlVal where
  | vnull : SqlVal
  | vint : Int → SqlVal
  | vtext : String → SqlVal
deriving DecidableEq

/-- Parameter binding by Python sqlite3: `None`→NULL, `bool`→integer,
`int`→integer, `str`→text; a `list` or `dict` parameter raises
(`.error`, an unhandled exception → 5xx). -/
def bindParam : Option Json → Except Unit SqlVal
  | none => .ok .vnull
  | some .jnull => .ok .vnull
  | some (.jbool b) => .ok (.vint (if b then 1 else 0))
  | some (.jnum n) => .ok (.vint n)
  | some (.jstr s) => .ok (.vtext s)
  | some (.jarr _) => .error ()
  | some (.jobj _) => .error ()

/-- TEXT affinity applied by SQLite when a value is stored into a TEXT
column (or compared against one): integers are converted to their decimal
text rendering, NULL stays NULL. -/
def textAff : SqlVal → Option String
  | .vnull => none
  | .vint n => some (toString n)
  | .vtext s => some s

/-- Row of the `ui_elements` table. -/
structure UIElement where
  id : Nat
  key : String
  type : String
  label : String
deriving DecidableEq

/-- Row of the `events` table (`payload` column is nullable TEXT). -/
structure EventRow where
  id : Nat
  event_type : String
  ui_element_id : Nat
  payload : Option String
  created_at : Nat
deriving DecidableEq

/-- The SQLite database: the two tables plus their AUTOINCREMENT
counters. -/
structure Store where
  elements : List UIElement
  events : List EventRow
  nextElemId : Nat
  nextEventId : Nat
deriving DecidableEq

/-- A database file that does not exist yet. -/
def emptyStore : Store := ⟨[], [], 1, 1⟩

/-- Seed rows of app.py lines 45-50. -/
def seedRows : List (String × String × String) :=
  [("btn_red", "button", "Red Button"),
   ("btn_blue", "button", "Blue Button"),
   ("txt_note", "text_input", "Note"),
   ("txt_idea", "text_input", "Idea")]

/-- INSERT of consecutive rows with AUTOINCREMENT ids, as `executemany`. -/
def assignIds (startId : Nat) : List (String × String × String) → List UIElement
  | [] => []
  | (k, t, l) :: rest => ⟨startId, k, t, l⟩ :: assignIds (startId + 1) rest

/-- Function `init_db` of app.py: `CREATE TABLE IF NOT EXISTS` (a no-op on
an existing schema), then seed `ui_elements` with the four rows iff
`SELECT COUNT(*)` returns 0. -/
def init_db (s : Store) : Store :=
  if s.elements.isEmpty then
    { s with elements := assignIds s.nextElemId seedRows,
             nextElemId := s.nextElemId + seedRows.length }
  else s

/-- The store right after a fresh initialization (empty database file). -/
def seededStore : Store := init_db emptyStore

/-- Serialized element of the `GET /elements` response,
`\x7bid, key, type, label\x7d`. -/
structure ElemOut where
  id : Nat
  key : String
  type : String
  label : String
deriving DecidableEq

/-- Insertion into a list sorted by ascending id. -/
def insertById (e : UIElement) : List UIElement → List UIElement
  | [] => [e]
  | x :: xs => if e.id ≤ x.id then e :: x :: xs else x :: insertById e xs

/-- ORDER BY id: sort the table rows by ascending id. -/
def sortById (l : List UIElement) : List UIElement := l.foldr insertById []

/-- Handler `list_elements` of app.py: `SELECT id, key, type, label FROM
ui_elements ORDER BY id`, serialized as a JSON array. -/
def list_elements (s : Store) : List ElemOut :=
  (sortById s.elements).map fun e => ⟨e.id, e.key, e.type, e.label⟩

/-- Comparison `key = ?` of the SELECT in app.py line 80: the bound
parameter receives TEXT affinity from the `key` column; NULL matches
nothing. -/
def keyMatches (kv : SqlVal) (e : UIElement) : Bool :=
  match textAff kv with
  | none => false
  | some t => e.key == t

/-- SELECT id FROM ui_elements WHERE key = ? for a bound parameter. -/
def findBoundKey (s : Store) (kv : SqlVal) : Option UIElement :=
  s.elements.find? (keyMatches kv)

/-- Lookup of a UIElement by its (UNIQUE) string key, the store operation
the spec calls `findElementByKey`. -/
def findElementByKey (s : Store) (k : String) : Option UIElement :=
  s.elements.find? fun e => e.key == k

/-- INSERT INTO events (app.py lines 85-88) followed by COMMIT.  The
declared FOREIGN KEY is not enforced (no `PRAGMA foreign_keys=ON` is ever
executed on the connection), so the insert succeeds for any `elemId`. -/
def insertEvent (s : Store) (etype : String) (elemId : Nat)
    (payload : Option String) (now : Nat) : Store :=
  { s with events := s.events ++ [⟨s.nextEventId, etype, elemId, payload, now⟩],
           nextEventId := s.nextEventId + 1 }

/-- Response object of a successful `POST /events`,
`\x7bid, event_type, payload, created_at, element_key, element_label,
element_type\x7d`. -/
structure EventOut where
  id : Nat
  event_type : String
  payload : Option String
  created_at : Nat
  element_key : String
  element_label : String
  element_type : String
deriving DecidableEq

/-- HTTP outcome of a `POST /events` request: 201 with the created object,
400 with `\x7berror: msg\x7d`, or an unhandled exception surfaced by Flask
as a 5xx server error. -/
inductive Resp where
  | created : EventOut → Resp
  | badRequest : String → Resp
  | serverError : Resp
deriving DecidableEq

/-- Read-back join of app.py lines 91-98: the just-inserted event joined
with its element; `fetchone()` returns `None` when the join is empty (then
`dict(created)` raises → 5xx). -/
def readback (s : Store) (evtId : Nat) : Option EventOut :=
  match s.events.find? fun e => e.id == evtId with
  | none => none
  | some e =>
    match s.elements.find? fun u => u.id == e.ui_element_id with
    | none => none
    | some u => some ⟨e.id, e.event_type, e.payload, e.created_at, u.key, u.label, u.type⟩

/-- Handler `create_event` of app.py lines 65-99, for a request whose body
parsed to `body` (`none` = absent/unparseable), at server time `now`. -/
def create_event (s : Store) (body : Option Json) (now : Nat) : Resp × Store :=
  let data : Json :=
    match body with
    | none => .jobj []
    | some j => if truthy j then j else .jobj []
  match data with
  | .jobj fields =>
    let element_key := jsonLookup fields "element_key"
    let event_type := jsonLookup fields "event_type"
    let payload := jsonLookup fields "payload"
    if !(etValid event_type) then
      (.badRequest "invalid event_type", s)
    else if !(truthyOpt element_key) then
      (.badRequest "element_key required", s)
    else if isStr event_type "text_submit" && !(payloadTruthyNonBlank payload) then
      (.badRequest "payload required for text_submit", s)
    else
      match bindParam element_key with
      | .error _ => (.serverError, s)
      | .ok kv =>
        match findBoundKey s kv with
        | none => (.badRequest "unknown element_key", s)
        | some row =>
          match bindParam payload with
          | .error _ => (.serverError, s)
          | .ok pv =>
            let etStr : String :=
              match event_type with
              | some (.jstr t) => t
              | _ => ""
            let s1 := insertEvent s etStr row.id (textAff pv) now
            match readback s1 s.nextEventId with
            | none => (.serverError, s1)
            | some out => (.created out, s1)
  | _ => (.serverError, s)

/-- Well-formedness the SQLite schema guarantees for the real database:
every event id is below the AUTOINCREMENT counter, and element ids are
pairwise distinct (PRIMARY KEY). -/
def WF (s : Store) : Prop :=
  (∀ e ∈ s.events, e.id < s.nextEventId) ∧ (s.elements.map (·.id)).Nodup

instance : DecidablePred WF := fun s => by
  unfold WF
  infer_instance

/-- Helper: `find?` on a list extended with a fresh row (id strictly above
all existing ids) locates exactly the new row. -/
theorem find_fresh_event (l : List EventRow) (x : EventRow) (n : Nat)
    (hx : x.id = n) (h : ∀ e ∈ l, e.id < n) :
    ((l ++ [x]).find? fun e => e.id == n) = some x := by
  induction l with
  | nil => simp [List.find?, hx]
  | cons a t ih =>
    have ha : (a.id == n) = false := by
      simpa using Nat.ne_of_lt (h a (List.mem_cons_self a t))
    have ht : ∀ e ∈ t, e.id < n := fun e he => h e (List.mem_cons_of_mem a he)
    simp [List.find?, ha, ih ht]

/-- Helper: in a table with pairwise distinct ids, `find?` by the id of a
member returns that member. -/
theorem find_elem_nodup (l : List UIElement) (hn : (l.map (·.id)).Nodup)
    (e : UIElement) (he : e ∈ l) (n : Nat) (hid : e.id = n) :
    (l.find? fun u => u.id == n) = some e := by
  induction l with
  | nil => cases he
  | cons a t ih =>
    rcases List.mem_cons.mp he with rfl | he2
    · simp [List.find?, hid]
    · have hcons : (∀ x ∈ t, ¬x.id = a.id) ∧ (List.map (fun x => x.id) t).Nodup := by
        simpa using hn
      have hne : (a.id == n) = false := by
        simp only [beq_eq_false_iff_ne, ne_eq]
        intro hcontra
        exact hcons.1 e he2 (by rw [hid, hcontra])
      simp [List.find?, hne, ih hcons.2 he2]

/-- Helper: binding a string parameter and comparing under TEXT affinity is
plain key lookup. -/
theorem findBoundKey_vtext (s : Store) (k : String) :
    findBoundKey s (.vtext k) = findElementByKey s k := rfl

/-- Helper: the exact outcome of `create_event` on a fully valid request
(fields as strings, payload a string or absent), on a well-formed store:
201 with the denormalized created object, and exactly the one event row
appended. -/
theorem create_event_success_eq (s : Store) (fields : List (String × Json))
    (now : Nat) (et k : String) (p : Option String) (elem : UIElement)
    (hw : WF s)
    (het : jsonLookup fields "event_type" = some (.jstr et))
    (hets : et = "click" ∨ et = "text_submit")
    (hk : jsonLookup fields "element_key" = some (.jstr k))
    (hk0 : k ≠ "")
    (hp : jsonLookup fields "payload" = Option.map Json.jstr p)
    (hpv : et = "text_submit" → ∃ q, p = some q ∧ pyStrip q ≠ "")
    (hfind : findElementByKey s k = some elem) :
    create_event s (some (.jobj fields)) now =
      (.created ⟨s.nextEventId, et, p, now, elem.key, elem.label, elem.type⟩,
       insertEvent s et elem.id p now) := by
  have hfe : fields.isEmpty = false := by
    cases fields with
    | nil => simp [jsonLookup] at het
    | cons a t => rfl
  have hmem : elem ∈ s.elements := List.mem_of_find?_eq_some hfind
  have hrb : readback (insertEvent s et elem.id p now) s.nextEventId =
      some ⟨s.nextEventId, et, p, now, elem.key, elem.label, elem.type⟩ := by
    unfold readback insertEvent
    rw [find_fresh_event s.events _ s.nextEventId rfl hw.1]
    dsimp only
    rw [find_elem_nodup s.elements hw.2 elem hmem elem.id rfl]
  rcases hets with rfl | rfl
  · cases p with
    | none =>
      simp [create_event, hfe, het, hk, hp, hk0, hrb, findBoundKey_vtext, hfind,
        truthyOpt, truthy, bindParam, textAff, etValid, isStr, payloadTruthyNonBlank]
    | some q =>
      simp [create_event, hfe, het, hk, hp, hk0, hrb, findBoundKey_vtext, hfind,
        truthyOpt, truthy, bindParam, textAff, etValid, isStr, payloadTruthyNonBlank]
  · obtain ⟨q, rfl, hq⟩ := hpv rfl
    have hqne : q ≠ "" := by
      intro h
      rw [h] at hq
      exact hq rfl
    simp [create_event, hfe, het, hk, hp, hk0, hrb, findBoundKey_vtext, hfind,
      truthyOpt, truthy, bindParam, textAff, etValid, isStr, payloadTruthyNonBlank,
      pyStr, hq, hqne]

/-- C1: For every POST /events request whose event_type is exactly "click"
or "text_submit", whose element_key resolves to an existing UIElement, and
(when event_type is "text_submit") whose payload is non-empty after
trimming whitespace, the response is 201 with body containing exactly the
fields id, event_type, payload, created_at, element_key, element_label,
element_type, where the element_* fields equal the key, label and type of
the referenced UIElement and created_at is the integer server time at
insertion; for "click" the payload may be absent and the request still
yields 201. -/
theorem C1_valid_event_created (s : Store) (fields : List (String × Json))
    (now : Nat) (et k : String) (p : Option String) (elem : UIElement)
    (hw : WF s)
    (het : jsonLookup fields "event_type" = some (.jstr et))
    (hets : et = "click" ∨ et = "text_submit")
    (hk : jsonLookup fields "element_key" = some (.jstr k))
    (hk0 : k ≠ "")
    (hp : jsonLookup fields "payload" = Option.map Json.jstr p)
    (hpv : et = "text_submit" → ∃ q, p = some q ∧ pyStrip q ≠ "")
    (hfind : findElementByKey s k = some elem) :
    create_event s (some (.jobj fields)) now =
      (.created ⟨s.nextEventId, et, p, now, elem.key, elem.label, elem.type⟩,
       insertEvent s et elem.id p now) :=
  create_event_success_eq s fields now et k p elem hw het hets hk hk0 hp hpv hfind

/-- Witness for C1: a "click" on btn_red with no payload yields 201 with
the denormalized body. -/
theorem C1_witness :
    create_event seededStore
      (some (.jobj [("event_type", .jstr "click"), ("element_key", .jstr "btn_red")])) 100 =
      (.created ⟨1, "click", none, 100, "btn_red", "Red Button", "button"⟩,
       insertEvent seededStore "click" 1 none 100) :=
  C1_valid_event_created seededStore
    [("event_type", .jstr "click"), ("element_key", .jstr "btn_red")]
    100 "click" "btn_red" none ⟨1, "btn_red", "button", "Red Button"⟩
    (by decide) rfl (Or.inl rfl) rfl (by decide) rfl
    (by intro h; exact absurd h (by decide)) rfl

/-- C5: Round trip: for every successful POST /events (string or absent
payload), the id in the returned object identifies a stored events row
whose event_type equals the submitted event_type, whose payload equals the
submitted payload exactly as given (raw, untrimmed), whose ui_element_id
is the id of the element resolved from the submitted element_key, and
whose created_at is the server-assigned timestamp returned in the
response. -/
theorem C5_roundtrip (s : Store) (fields : List (String × Json))
    (now : Nat) (et k : String) (p : Option String) (elem : UIElement)
    (hw : WF s)
    (het : jsonLookup fields "event_type" = some (.jstr et))
    (hets : et = "click" ∨ et = "text_submit")
    (hk : jsonLookup fields "element_key" = some (.jstr k))
    (hk0 : k ≠ "")
    (hp : jsonLookup fields "payload" = Option.map Json.jstr p)
    (hpv : et = "text_submit" → ∃ q, p = some q ∧ pyStrip q ≠ "")
    (hfind : findElementByKey s k = some elem) :
    ∃ out s2, create_event s (some (.jobj fields)) now = (.created out, s2) ∧
      (s2.events.find? fun e => e.id == out.id) =
        some ⟨out.id, et, elem.id, p, out.created_at⟩ ∧
      out.created_at = now := by
  refine ⟨_, _,
    create_event_success_eq s fields now et k p elem hw het hets hk hk0 hp hpv hfind,
    ?_, rfl⟩
  exact find_fresh_event s.events _ s.nextEventId rfl hw.1

/-- Witness for C5: a "text_submit" on txt_note with the raw payload
" raw " is stored untrimmed, with matching row fields. -/
theorem C5_witness :
    ∃ out s2, create_event seededStore
      (some (.jobj [("event_type", .jstr "text_submit"),
                    ("element_key", .jstr "txt_note"),
                    ("payload", .jstr " raw ")])) 200 = (.created out, s2) ∧
      (s2.events.find? fun e => e.id == out.id) =
        some ⟨out.id, "text_submit", 3, some " raw ", out.created_at⟩ ∧
      out.created_at = 200 :=
  C5_roundtrip seededStore
    [("event_type", .jstr "text_submit"), ("element_key", .jstr "txt_note"),
     ("payload", .jstr " raw ")]
    200 "text_submit" "txt_note" (some " raw ") ⟨3, "txt_note", "text_input", "Note"⟩
    (by decide) rfl (Or.inr rfl) rfl (by decide) rfl
    (fun _ => ⟨" raw ", rfl, by decide⟩) rfl

/-- Helper: an event_type failing the enum check short-circuits with 400
"invalid event_type" and no store change, whatever the other fields are. -/
theorem ce_invalid_et (s : Store) (fields : List (String × Json)) (now : Nat)
    (h : etValid (jsonLookup fields "event_type") = false) :
    create_event s (some (.jobj fields)) now = (.badRequest "invalid event_type", s) := by
  cases fields with
  | nil => simp [create_event, jsonLookup, truthy, etValid, isStr]
  | cons a t => simp [create_event, truthy, h]

/-- Helper: with a valid event_type, a falsy element_key short-circuits
with 400 "element_key required" and no store change. -/
theorem ce_missing_key (s : Store) (fields : List (String × Json)) (now : Nat)
    (h1 : etValid (jsonLookup fields "event_type") = true)
    (h2 : truthyOpt (jsonLookup fields "element_key") = false) :
    create_event s (some (.jobj fields)) now = (.badRequest "element_key required", s) := by
  cases fields with
  | nil => simp [jsonLookup, etValid, isStr] at h1
  | cons a t => simp [create_event, truthy, h1, h2]

/-- Helper: for event_type "text_submit" with a truthy element_key, a
missing/falsy/blank payload short-circuits with 400 "payload required for
text_submit" and no store change (whether or not element_key exists). -/
theorem ce_blank_payload (s : Store) (fields : List (String × Json)) (now : Nat)
    (h1 : isStr (jsonLookup fields "event_type") "text_submit" = true)
    (h2 : truthyOpt (jsonLookup fields "element_key") = true)
    (h3 : payloadTruthyNonBlank (jsonLookup fields "payload") = false) :
    create_event s (some (.jobj fields)) now =
      (.badRequest "payload required for text_submit", s) := by
  have h1v : etValid (jsonLookup fields "event_type") = true := by
    simp [etValid, h1]
  cases fields with
  | nil => simp [jsonLookup, isStr] at h1
  | cons a t => simp [create_event, truthy, h1, h1v, h2, h3]

/-- Helper: with all three prior validations passing, a string element_key
not in ui_elements yields 400 "unknown element_key" and no store change. -/
theorem ce_unknown_key (s : Store) (fields : List (String × Json)) (now : Nat) (k : String)
    (h1 : etValid (jsonLookup fields "event_type") = true)
    (h2 : jsonLookup fields "element_key" = some (.jstr k))
    (h3 : k ≠ "")
    (h4 : isStr (jsonLookup fields "event_type") "text_submit" = true →
          payloadTruthyNonBlank (jsonLookup fields "payload") = true)
    (h5 : findElementByKey s k = none) :
    create_event s (some (.jobj fields)) now = (.badRequest "unknown element_key", s) := by
  have hcond : (isStr (jsonLookup fields "event_type") "text_submit"
      && !payloadTruthyNonBlank (jsonLookup fields "payload")) = false := by
    cases hi : isStr (jsonLookup fields "event_type") "text_submit" with
    | false => simp
    | true => simp [h4 hi]
  cases fields with
  | nil => simp [jsonLookup, etValid, isStr] at h1
  | cons a t =>
    simp [create_event, truthy, truthyOpt, h1, h2, h3, hcond, bindParam,
      findBoundKey_vtext, h5]

/-- C2: For every POST /events request (object body) that fails one of the
four validations — event_type not in the enum; element_key missing or
falsy; text_submit payload missing or blank after trimming; element_key
not resolving to an existing UIElement — the response is a 400 with
exactly the corresponding message string ("invalid event_type",
"element_key required", "payload required for text_submit",
"unknown element_key") and no row is inserted: the store is unchanged. -/
theorem C2_validation_errors :
    (∀ (s : Store) (fields : List (String × Json)) (now : Nat),
      etValid (jsonLookup fields "event_type") = false →
      create_event s (some (.jobj fields)) now = (.badRequest "invalid event_type", s)) ∧
    (∀ (s : Store) (fields : List (String × Json)) (now : Nat),
      etValid (jsonLookup fields "event_type") = true →
      truthyOpt (jsonLookup fields "element_key") = false →
      create_event s (some (.jobj fields)) now = (.badRequest "element_key required", s)) ∧
    (∀ (s : Store) (fields : List (String × Json)) (now : Nat),
      isStr (jsonLookup fields "event_type") "text_submit" = true →
      truthyOpt (jsonLookup fields "element_key") = true →
      payloadTruthyNonBlank (jsonLookup fields "payload") = false →
      create_event s (some (.jobj fields)) now =
        (.badRequest "payload required for text_submit", s)) ∧
    (∀ (s : Store) (fields : List (String × Json)) (now : Nat) (k : String),
      etValid (jsonLookup fields "event_type") = true →
      jsonLookup fields "element_key" = some (.jstr k) →
      k ≠ "" →
      (isStr (jsonLookup fields "event_type") "text_submit" = true →
        payloadTruthyNonBlank (jsonLookup fields "payload") = true) →
      findElementByKey s k = none →
      create_event s (some (.jobj fields)) now = (.badRequest "unknown element_key", s)) :=
  ⟨fun s fields now h => ce_invalid_et s fields now h,
   fun s fields now h1 h2 => ce_missing_key s fields now h1 h2,
   fun s fields now h1 h2 h3 => ce_blank_payload s fields now h1 h2 h3,
   fun s fields now k h1 h2 h3 h4 h5 => ce_unknown_key s fields now k h1 h2 h3 h4 h5⟩

/-- Witness for C2: the four failure shapes at concrete inputs, each 400
with its exact message and the seeded store unchanged. -/
theorem C2_witness :
    create_event seededStore
      (some (.jobj [("event_type", .jstr "hover"), ("element_key", .jstr "btn_red")])) 5 =
      (.badRequest "invalid event_type", seededStore) ∧
    create_event seededStore (some (.jobj [("event_type", .jstr "click")])) 5 =
      (.badRequest "element_key required", seededStore) ∧
    create_event seededStore
      (some (.jobj [("event_type", .jstr "text_submit"), ("element_key", .jstr "txt_note"),
                    ("payload", .jstr "   ")])) 5 =
      (.badRequest "payload required for text_submit", seededStore) ∧
    create_event seededStore
      (some (.jobj [("event_type", .jstr "click"), ("element_key", .jstr "ghost")])) 5 =
      (.badRequest "unknown element_key", seededStore) :=
  ⟨C2_validation_errors.1 seededStore
     [("event_type", .jstr "hover"), ("element_key", .jstr "btn_red")] 5 (by decide),
   C2_validation_errors.2.1 seededStore [("event_type", .jstr "click")] 5
     (by decide) (by decide),
   C2_validation_errors.2.2.1 seededStore
     [("event_type", .jstr "text_submit"), ("element_key", .jstr "txt_note"),
      ("payload", .jstr "   ")] 5 (by decide) (by decide) (by decide),
   C2_validation_errors.2.2.2 seededStore
     [("event_type", .jstr "click"), ("element_key", .jstr "ghost")] 5 "ghost"
     (by decide) rfl (by decide) (by intro h; exact absurd h (by decide)) rfl⟩

/-- C4: POST /events applies its validations in the fixed order event_type
enum, element_key presence, text_submit payload, element_key existence,
each failure short-circuiting: for a request failing several checks the
returned message is the one for the earliest failing check, whatever the
later fields hold — in particular the payload error is returned even when
the element_key is also unknown. -/
theorem C4_short_circuit :
    (∀ (s : Store) (fields : List (String × Json)) (now : Nat),
      etValid (jsonLookup fields "event_type") = false →
      create_event s (some (.jobj fields)) now = (.badRequest "invalid event_type", s)) ∧
    (∀ (s : Store) (fields : List (String × Json)) (now : Nat),
      etValid (jsonLookup fields "event_type") = true →
      truthyOpt (jsonLookup fields "element_key") = false →
      create_event s (some (.jobj fields)) now = (.badRequest "element_key required", s)) ∧
    (∀ (s : Store) (fields : List (String × Json)) (now : Nat) (k : String),
      isStr (jsonLookup fields "event_type") "text_submit" = true →
      jsonLookup fields "element_key" = some (.jstr k) →
      k ≠ "" →
      payloadTruthyNonBlank (jsonLookup fields "payload") = false →
      findElementByKey s k = none →
      create_event s (some (.jobj fields)) now =
        (.badRequest "payload required for text_submit", s)) :=
  ⟨fun s fields now h => ce_invalid_et s fields now h,
   fun s fields now h1 h2 => ce_missing_key s fields now h1 h2,
   fun s fields now k h1 h2 h3 h4 _h5 =>
     ce_blank_payload s fields now h1 (by simp [truthyOpt, h2, truthy, h3]) h4⟩

/-- Witness for C4: a request with a bad event_type and a missing
element_key is rejected with "invalid event_type"; a text_submit with a
blank payload and an unknown element_key is rejected with the payload
message. -/
theorem C4_witness :
    create_event seededStore (some (.jobj [("event_type", .jstr "drag")])) 6 =
      (.badRequest "invalid event_type", seededStore) ∧
    create_event seededStore
      (some (.jobj [("event_type", .jstr "text_submit"), ("element_key", .jstr "ghost"),
                    ("payload", .jstr " ")])) 6 =
      (.badRequest "payload required for text_submit", seededStore) :=
  ⟨C4_short_circuit.1 seededStore [("event_type", .jstr "drag")] 6 (by decide),
   C4_short_circuit.2.2 seededStore
     [("event_type", .jstr "text_submit"), ("element_key", .jstr "ghost"),
      ("payload", .jstr " ")] 6 "ghost" (by decide) rfl (by decide) (by decide) rfl⟩

/-- C6: Store initialization is idempotent: after one initialization of an
empty store the ui_elements table holds exactly the four seed rows; any
number of further initializations leaves it unchanged (never more than
four seeded elements, never a duplicated seed set); and seeding happens
only when the table is empty (a non-empty store is returned untouched). -/
theorem C6_init_idempotent :
    (init_db emptyStore).elements =
      [⟨1, "btn_red", "button", "Red Button"⟩,
       ⟨2, "btn_blue", "button", "Blue Button"⟩,
       ⟨3, "txt_note", "text_input", "Note"⟩,
       ⟨4, "txt_idea", "text_input", "Idea"⟩] ∧
    (init_db emptyStore).elements.length = 4 ∧
    (∀ n : Nat, init_db^[n] (init_db emptyStore) = init_db emptyStore) ∧
    (∀ s : Store, s.elements ≠ [] → init_db s = s) := by
  have hfix : ∀ s : Store, s.elements ≠ [] → init_db s = s := by
    intro s h
    have he : s.elements.isEmpty = false := by simpa using h
    simp [init_db, he]
  refine ⟨rfl, rfl, ?_, hfix⟩
  intro n
  induction n with
  | zero => rfl
  | succ m ih =>
    rw [Function.iterate_succ_apply', ih]
    exact hfix (init_db emptyStore) (by decide)

/-- Witness for C6: re-initializing the already-seeded store returns it
unchanged. -/
theorem C6_witness : init_db seededStore = seededStore :=
  C6_init_idempotent.2.2.2 seededStore (by decide)

/-- C7: after a fresh initialization, GET /elements returns exactly four
rows, in ascending id order, whose (key, type, label) values are precisely
the seed table, each serialized as an \x7bid, key, type, label\x7d
object. -/
theorem C7_fresh_listing :
    list_elements seededStore =
      [⟨1, "btn_red", "button", "Red Button"⟩,
       ⟨2, "btn_blue", "button", "Blue Button"⟩,
       ⟨3, "txt_note", "text_input", "Note"⟩,
       ⟨4, "txt_idea", "text_input", "Idea"⟩] ∧
    List.Pairwise (· < ·) ((list_elements seededStore).map (·.id)) := by
  refine ⟨rfl, ?_⟩
  rw [show (list_elements seededStore).map (·.id) = [1, 2, 3, 4] from rfl]
  simp

/-- C8: no operation of the system updates or deletes an existing row:
`create_event` leaves ui_elements untouched and at most appends to events,
`init_db` leaves events untouched and at most appends to ui_elements, and
the store-level insert only appends.  (`list_elements` and the index page
handler are read-only functions of the store by construction: they return
no store.) -/
theorem C8_append_only :
    (∀ (s : Store) (body : Option Json) (now : Nat),
      (create_event s body now).2.elements = s.elements ∧
      ∃ tail, (create_event s body now).2.events = s.events ++ tail) ∧
    (∀ s : Store,
      (∃ tail, (init_db s).elements = s.elements ++ tail) ∧
      (init_db s).events = s.events) ∧
    (∀ (s : Store) (et : String) (eid : Nat) (p : Option String) (now : Nat),
      (insertEvent s et eid p now).elements = s.elements ∧
      (insertEvent s et eid p now).events =
        s.events ++ [⟨s.nextEventId, et, eid, p, now⟩]) := by
  refine ⟨?_, ?_, fun s et eid p now => ⟨rfl, rfl⟩⟩
  · intro s body now
    unfold create_event
    dsimp only
    repeat' split
    all_goals first
      | exact ⟨rfl, _, rfl⟩
      | exact ⟨rfl, [], by simp⟩
  · intro s
    unfold init_db
    split
    · rename_i h
      have he : s.elements = [] := by simpa using h
      exact ⟨⟨assignIds s.nextElemId seedRows, by rw [he]; rfl⟩, rfl⟩
    · exact ⟨⟨[], by simp⟩, rfl⟩

/-- C3: evidence at the failing input: no seeded element has id 999, yet
the store-level insert (app.py lines 85-89, INSERT then COMMIT) succeeds
and durably stores an event row referencing ui_element_id 999, because the
declared FOREIGN KEY is never enabled on the connection; the subsequent
read-back join then finds no row (so the handler crashes into a 5xx only
after the orphan row is committed). -/
theorem C3_fk_unenforced :
    (seededStore.elements.all fun e => e.id != 999) = true ∧
    (insertEvent seededStore "click" 999 none 50).events =
      [⟨1, "click", 999, none, 50⟩] ∧
    readback (insertEvent seededStore "click" 999 none 50) 1 = none :=
  ⟨rfl, rfl, rfl⟩

/-- C9 counterexample: the body `[1]` is valid JSON, truthy and not an
object, so `data.get` raises AttributeError and the request is a server
error, not the 400 "invalid event_type" the claim requires. -/
theorem C9_counterexample :
    create_event seededStore (some (.jarr [.jnum 1])) 7 = (.serverError, seededStore) ∧
    Resp.serverError ≠ Resp.badRequest "invalid event_type" :=
  ⟨rfl, fun h => Resp.noConfusion h⟩

/-- C9 amended: a POST /events body that is absent/unparseable, or parses
to a falsy JSON value, or to a JSON object without an event_type field, is
treated as empty and yields 400 "invalid event_type" with the store
unchanged; but a body parsing to a truthy non-object JSON value instead
raises on `data.get` and yields a server error. -/
theorem C9_amended_body_handling :
    (∀ (s : Store) (now : Nat),
      create_event s none now = (.badRequest "invalid event_type", s)) ∧
    (∀ (s : Store) (now : Nat) (j : Json), truthy j = false →
      create_event s (some j) now = (.badRequest "invalid event_type", s)) ∧
    (∀ (s : Store) (now : Nat) (fields : List (String × Json)),
      jsonLookup fields "event_type" = none →
      create_event s (some (.jobj fields)) now = (.badRequest "invalid event_type", s)) ∧
    (∀ (s : Store) (now : Nat) (j : Json), truthy j = true →
      (∀ fs, j ≠ .jobj fs) →
      create_event s (some j) now = (.serverError, s)) := by
  refine ⟨fun s now => rfl, ?_, ?_, ?_⟩
  · intro s now j h
    simp [create_event, h, jsonLookup, etValid, isStr]
  · intro s now fields h
    cases fields with
    | nil => rfl
    | cons a t => simp [create_event, truthy, h, etValid, isStr]
  · intro s now j ht hno
    cases j with
    | jnull => simp [truthy] at ht
    | jbool b => simp [create_event, truthy] at ht ⊢; simp [ht]
    | jnum n => simp [create_event, ht]
    | jstr t => simp [create_event, ht]
    | jarr xs => simp [create_event, ht]
    | jobj fs => exact absurd rfl (hno fs)

/-- Witness for C9: the three 400 shapes and the server-error shape at
concrete inputs. -/
theorem C9_witness :
    create_event seededStore none 3 = (.badRequest "invalid event_type", seededStore) ∧
    create_event seededStore (some (.jobj [])) 3 =
      (.badRequest "invalid event_type", seededStore) ∧
    create_event seededStore (some (.jobj [("element_key", .jstr "btn_red")])) 3 =
      (.badRequest "invalid event_type", seededStore) ∧
    create_event seededStore (some (.jstr "x")) 3 = (.serverError, seededStore) :=
  ⟨C9_amended_body_handling.1 seededStore 3,
   C9_amended_body_handling.2.1 seededStore 3 (.jobj []) rfl,
   C9_amended_body_handling.2.2.1 seededStore 3 [("element_key", .jstr "btn_red")] rfl,
   C9_amended_body_handling.2.2.2 seededStore 3 (.jstr "x") rfl
     (fun _fs h => Json.noConfusion h)⟩

/-- Helper: the exact outcome of `create_event` for a "text_submit"
request whose payload is an arbitrary scalar JSON value passing the
truthiness/non-blank check: the stored and returned payload is the TEXT
affinity rendering of the bound parameter. -/
theorem create_event_scalar_payload (s : Store) (fields : List (String × Json))
    (now : Nat) (k : String) (v : Json) (pv : SqlVal) (elem : UIElement)
    (hw : WF s)
    (het : jsonLookup fields "event_type" = some (.jstr "text_submit"))
    (hk : jsonLookup fields "element_key" = some (.jstr k))
    (hk0 : k ≠ "")
    (hfind : findElementByKey s k = some elem)
    (hp : jsonLookup fields "payload" = some v)
    (htr : truthy v = true)
    (hnb : pyStrip (pyStr v) ≠ "")
    (hbind : bindParam (some v) = .ok pv) :
    create_event s (some (.jobj fields)) now =
      (.created ⟨s.nextEventId, "text_submit", textAff pv, now,
                 elem.key, elem.label, elem.type⟩,
       insertEvent s "text_submit" elem.id (textAff pv) now) := by
  have hfe : fields.isEmpty = false := by
    cases fields with
    | nil => simp [jsonLookup] at het
    | cons a t => rfl
  have hmem : elem ∈ s.elements := List.mem_of_find?_eq_some hfind
  have hrb : readback (insertEvent s "text_submit" elem.id (textAff pv) now) s.nextEventId =
      some ⟨s.nextEventId, "text_submit", textAff pv, now, elem.key, elem.label, elem.type⟩ := by
    unfold readback insertEvent
    rw [find_fresh_event s.events _ s.nextEventId rfl hw.1]
    dsimp only
    rw [find_elem_nodup s.elements hw.2 elem hmem elem.id rfl]
  have hbk : bindParam (some (Json.jstr k)) = .ok (.vtext k) := rfl
  have hks : truthy (Json.jstr k) = true := by simp [truthy, hk0]
  have hot : truthy (Json.jobj fields) = true := by simp [truthy, hfe]
  simp [create_event, hot, het, hk, hp, hk0, hrb, findBoundKey_vtext, hfind,
    truthyOpt, hks, etValid, isStr, payloadTruthyNonBlank, htr, hnb, hbk, hbind]

/-- C10 corrected, counterexample: a "text_submit" with the JSON number 5
as payload passes validation and yields 201, but the stored and returned
payload is the JSON string "5" (TEXT affinity rendering), which is not the
submitted number. -/
theorem C10_counterexample :
    create_event seededStore
      (some (.jobj [("event_type", .jstr "text_submit"), ("element_key", .jstr "btn_red"),
                    ("payload", .jnum 5)])) 9 =
      (.created ⟨1, "text_submit", some "5", 9, "btn_red", "Red Button", "button"⟩,
       { elements := seededStore.elements,
         events := [⟨1, "text_submit", 1, some "5", 9⟩],
         nextElemId := 5, nextEventId := 2 }) ∧
    Json.jstr "5" ≠ Json.jnum 5 :=
  ⟨rfl, fun h => Json.noConfusion h⟩

/-- C10 amended: the text_submit payload validation accepts any scalar
JSON value whose Python str() rendering is non-blank and truthy, storing
and returning its SQLite TEXT rendering (not the original value); a falsy
or absent payload is rejected with "payload required for text_submit"; a
non-scalar payload — a value whose parameter binding raises, i.e. an
array or an object — passes validation but fails at parameter binding
with a server error and no insert. -/
theorem C10_amended_payload_semantics :
    (∀ (s : Store) (fields : List (String × Json)) (now : Nat) (k : String)
       (v : Json) (pv : SqlVal) (elem : UIElement),
      WF s →
      jsonLookup fields "event_type" = some (.jstr "text_submit") →
      jsonLookup fields "element_key" = some (.jstr k) →
      k ≠ "" →
      findElementByKey s k = some elem →
      jsonLookup fields "payload" = some v →
      truthy v = true →
      pyStrip (pyStr v) ≠ "" →
      bindParam (some v) = .ok pv →
      create_event s (some (.jobj fields)) now =
        (.created ⟨s.nextEventId, "text_submit", textAff pv, now,
                   elem.key, elem.label, elem.type⟩,
         insertEvent s "text_submit" elem.id (textAff pv) now)) ∧
    (∀ (s : Store) (fields : List (String × Json)) (now : Nat) (v : Json),
      jsonLookup fields "event_type" = some (.jstr "text_submit") →
      truthyOpt (jsonLookup fields "element_key") = true →
      jsonLookup fields "payload" = some v →
      truthy v = false →
      create_event s (some (.jobj fields)) now =
        (.badRequest "payload required for text_submit", s)) ∧
    (∀ (s : Store) (fields : List (String × Json)) (now : Nat),
      jsonLookup fields "event_type" = some (.jstr "text_submit") →
      truthyOpt (jsonLookup fields "element_key") = true →
      jsonLookup fields "payload" = none →
      create_event s (some (.jobj fields)) now =
        (.badRequest "payload required for text_submit", s)) ∧
    (∀ (s : Store) (fields : List (String × Json)) (now : Nat) (k : String)
       (v : Json) (elem : UIElement),
      jsonLookup fields "event_type" = some (.jstr "text_submit") →
      jsonLookup fields "element_key" = some (.jstr k) →
      k ≠ "" →
      findElementByKey s k = some elem →
      jsonLookup fields "payload" = some v →
      truthy v = true →
      pyStrip (pyStr v) ≠ "" →
      bindParam (some v) = .error () →
      create_event s (some (.jobj fields)) now = (.serverError, s)) := by
  refine ⟨?_, ?_, ?_, ?_⟩
  · intro s fields now k v pv elem hw het hk hk0 hfind hp htr hnb hbind
    exact create_event_scalar_payload s fields now k v pv elem hw het hk hk0 hfind hp htr hnb hbind
  · intro s fields now v het hek hp htr
    exact ce_blank_payload s fields now (by simp [isStr, het])
      hek (by simp [payloadTruthyNonBlank, hp, htr])
  · intro s fields now het hek hp
    exact ce_blank_payload s fields now (by simp [isStr, het])
      hek (by simp [payloadTruthyNonBlank, hp])
  · intro s fields now k v elem het hk hk0 hfind hp htr hnb hbind
    have hfe : fields.isEmpty = false := by
      cases fields with
      | nil => simp [jsonLookup] at het
      | cons a t => rfl
    have hbk : bindParam (some (Json.jstr k)) = .ok (.vtext k) := rfl
    have hks : truthy (Json.jstr k) = true := by simp [truthy, hk0]
    have hot : truthy (Json.jobj fields) = true := by simp [truthy, hfe]
    simp [create_event, hot, het, hk, hp, hk0, findBoundKey_vtext, hfind,
      truthyOpt, hks, etValid, isStr, payloadTruthyNonBlank, htr, hnb, hbk,
      hbind]

/-- Witness for C10: payload `true` is accepted and stored as the text
"1"; payload `0` is rejected with the payload message; an array payload
and an object payload each pass validation and then fail at parameter
binding, a server error with the store unchanged. -/
theorem C10_witness :
    create_event seededStore
      (some (.jobj [("event_type", .jstr "text_submit"), ("element_key", .jstr "btn_blue"),
                    ("payload", .jbool true)])) 11 =
      (.created ⟨1, "text_submit", some "1", 11, "btn_blue", "Blue Button", "button"⟩,
       insertEvent seededStore "text_submit" 2 (some "1") 11) ∧
    create_event seededStore
      (some (.jobj [("event_type", .jstr "text_submit"), ("element_key", .jstr "btn_blue"),
                    ("payload", .jnum 0)])) 11 =
      (.badRequest "payload required for text_submit", seededStore) ∧
    create_event seededStore
      (some (.jobj [("event_type", .jstr "text_submit"), ("element_key", .jstr "btn_red"),
                    ("payload", .jarr [.jnum 1])])) 11 = (.serverError, seededStore) ∧
    create_event seededStore
      (some (.jobj [("event_type", .jstr "text_submit"), ("element_key", .jstr "btn_red"),
                    ("payload", .jobj [("a", .jnum 1)])])) 11 = (.serverError, seededStore) :=
  ⟨C10_amended_payload_semantics.1 seededStore
     [("event_type", .jstr "text_submit"), ("element_key", .jstr "btn_blue"),
      ("payload", .jbool true)] 11 "btn_blue" (.jbool true) (.vint 1)
     ⟨2, "btn_blue", "button", "Blue Button"⟩
     (by decide) rfl rfl (by decide) rfl rfl rfl (by decide) rfl,
   C10_amended_payload_semantics.2.1 seededStore
     [("event_type", .jstr "text_submit"), ("element_key", .jstr "btn_blue"),
      ("payload", .jnum 0)] 11 (.jnum 0) rfl (by decide) rfl rfl,
   C10_amended_payload_semantics.2.2.2 seededStore
     [("event_type", .jstr "text_submit"), ("element_key", .jstr "btn_red"),
      ("payload", .jarr [.jnum 1])] 11 "btn_red" (.jarr [.jnum 1])
     ⟨1, "btn_red", "button", "Red Button"⟩
     rfl rfl (by decide) rfl rfl rfl (by decide) rfl,
   C10_amended_payload_semantics.2.2.2 seededStore
     [("event_type", .jstr "text_submit"), ("element_key", .jstr "btn_red"),
      ("payload", .jobj [("a", .jnum 1)])] 11 "btn_red" (.jobj [("a", .jnum 1)])
     ⟨1, "btn_red", "button", "Red Button"⟩
     rfl rfl (by decide) rfl rfl rfl (by decide) rfl⟩
